import Mathlib

/-! # JK-BMS reply frames: layout, framing, validation and decoding

A shallow embedding of `JK-BMS.h` (JK-BMSToPylontechCAN).  The header gives the
constants, the frame header / trailer / reply structures and the prototypes of
the receive and decode functions.  The structures are embedded as declaration
tables (member name and C type, in source order) from which sizes, offsets and
bit positions are computed.  The function bodies are not part of the header;
their definitions below follow the written specification and say so.

Bytes are natural numbers below 256; a buffer is a list of bytes whose length is
the write cursor `sReplyFrameBufferIndex`.
-/

namespace JKBMS

/-! ## Constants of JK-BMS.h -/

/-- Default of the overridable compile-time bound on the number of cells. -/
def MAXIMUM_NUMBER_OF_CELLS : Nat := 24

def JK_FRAME_START_BYTE_0 : Nat := 0x4E
def JK_FRAME_START_BYTE_1 : Nat := 0x57
def JK_FRAME_END_BYTE : Nat := 0x68

def JK_BMS_RECEIVE_OK : Nat := 0
def JK_BMS_RECEIVE_FINISHED : Nat := 1
def JK_BMS_RECEIVE_ERROR : Nat := 2

/-- Capacity of `uint8_t JKReplyFrameBuffer[350]`. -/
def JKReplyFrameBufferSize : Nat := 350

/-- Number of values of the `uint16_t sReplyFrameBufferIndex`. -/
def sReplyFrameBufferIndexRange : Nat := 2 ^ 16

def JK_BMS_FRAME_HEADER_LENGTH : Nat := 11
def JK_BMS_FRAME_TRAILER_LENGTH : Nat := 9
/-- One more than the header length: `+1 for token 0x79`. -/
def JK_BMS_FRAME_INDEX_OF_CELL_INFO_LENGTH : Nat := JK_BMS_FRAME_HEADER_LENGTH + 1
def MINIMAL_JK_BMS_FRAME_LENGTH : Nat := 19

def NUMBER_OF_DEFINED_ALARM_BITS : Nat := 14

/-! ## Structure declarations as tables -/

/-- The C types that occur in the structures of JK-BMS.h. -/
inductive CType where
  | uint8
  | uint16
  | int16
  | uint32
  | chars (n : Nat)
  | union16
  deriving DecidableEq, Repr

/-- Number of bytes a value of the type takes in the packed wire layout. -/
def CType.wireWidth : CType → Nat
  | CType.uint8 => 1
  | CType.uint16 => 2
  | CType.int16 => 2
  | CType.uint32 => 4
  | .chars n => n
  | CType.union16 => 2

/-- One member of a structure declaration. -/
structure Member where
  name : String
  type : CType
  deriving DecidableEq, Repr

/-- Total number of bytes of the members in packed wire layout. -/
def wireSize (ms : List Member) : Nat :=
  (ms.map fun m => m.type.wireWidth).sum

/-- Byte offset of the named member from the start of its structure. -/
def offsetOf : List Member → String → Option Nat
  | [], _ => none
  | m :: ms, n =>
    if m.name = n then some 0 else (offsetOf ms n).map (· + m.type.wireWidth)

/-- The members of `struct JKFrameHeaderStruct`. -/
def JKFrameHeaderStruct : List Member :=
  [ Member.mk "StartFrameToken" CType.uint16,
    Member.mk "LengthOfFrame" CType.uint16,
    Member.mk "BMS_ID" CType.uint32,
    Member.mk "Function" CType.uint8,
    Member.mk "FrameSource" CType.uint8,
    Member.mk "TransportType" CType.uint8 ]

/-- The members of `struct JKFrameTailStruct`. -/
def JKFrameTailStruct : List Member :=
  [ Member.mk "RecordNumber" CType.uint32,
    Member.mk "EndToken" CType.uint8,
    Member.mk "UnusedChecksum" CType.uint16,
    Member.mk "Checksum" CType.uint16 ]

/-- The members of `struct JKCellInfoStruct`. -/
def JKCellInfoStructMembers : List Member :=
  [ Member.mk "CellNumber" CType.uint8,
    Member.mk "CellMillivolt" CType.uint16 ]

/-- The members of `struct JKReplyStruct`, in declaration order.  The two
anonymous unions with a `uint16_t` word are entered under the union name. -/
def JKReplyStruct : List Member :=
  [ Member.mk "TokenTemperaturePowerMosFet" CType.uint8,
    Member.mk "TemperaturePowerMosFet" CType.uint16,
    Member.mk "TokenTemperatureSensor1" CType.uint8,
    Member.mk "TemperatureSensor1" CType.uint16,
    Member.mk "TokenTemperatureSensor2" CType.uint8,
    Member.mk "TemperatureSensor2" CType.uint16,
    Member.mk "TokenVoltage" CType.uint8,
    Member.mk "Battery10Millivolt" CType.uint16,
    Member.mk "TokenCurrent" CType.uint8,
    Member.mk "Battery10MilliAmpere" CType.uint16,
    Member.mk "TokenSOCPercent" CType.uint8,
    Member.mk "SOCPercent" CType.uint8,
    Member.mk "TokenNumberOfTemperatureSensors" CType.uint8,
    Member.mk "NumberOfTemperatureSensors" CType.uint8,
    Member.mk "TokenCycles" CType.uint8,
    Member.mk "Cycles" CType.uint16,
    Member.mk "TokenTotalBatteryCycleCapacity" CType.uint8,
    Member.mk "TotalBatteryCycleCapacity" CType.uint32,
    Member.mk "TokenNumberOfBatteryCells" CType.uint8,
    Member.mk "NumberOfBatteryCells" CType.uint16,
    Member.mk "TokenBatteryAlarm" CType.uint8,
    Member.mk "AlarmUnion" CType.union16,
    Member.mk "TokenBatteryStatus" CType.uint8,
    Member.mk "StatusUnion" CType.union16,
    Member.mk "TokenBatteryOvervoltageProtection10Millivolt" CType.uint8,
    Member.mk "BatteryOvervoltageProtection10Millivolt" CType.uint16,
    Member.mk "TokenBatteryUndervoltageProtection10Millivolt" CType.uint8,
    Member.mk "BatteryUndervoltageProtection10Millivolt" CType.uint16,
    Member.mk "TokenCellOvervoltageProtectionMillivolt" CType.uint8,
    Member.mk "CellOvervoltageProtectionMillivolt" CType.uint16,
    Member.mk "TokenCellOvervoltageRecoveryMillivolt" CType.uint8,
    Member.mk "CellOvervoltageRecoveryMillivolt" CType.uint16,
    Member.mk "TokenCellOvervoltageDelaySeconds" CType.uint8,
    Member.mk "CellOvervoltageDelaySeconds" CType.uint16,
    Member.mk "TokenCellUndervoltageProtectionMillivolt" CType.uint8,
    Member.mk "CellUndervoltageProtectionMillivolt" CType.uint16,
    Member.mk "TokenCellUndervoltageRecoveryMillivolt" CType.uint8,
    Member.mk "CellUndervoltageRecoveryMillivolt" CType.uint16,
    Member.mk "TokenCellUndervoltageDelaySeconds" CType.uint8,
    Member.mk "CellUndervoltageDelaySeconds" CType.uint16,
    Member.mk "TokenVoltageDifferenceProtectionMillivolt" CType.uint8,
    Member.mk "VoltageDifferenceProtectionMillivolt" CType.uint16,
    Member.mk "TokenDischargeOvercurrentProtectionAmpere" CType.uint8,
    Member.mk "DischargeOvercurrentProtectionAmpere" CType.uint16,
    Member.mk "TokenDischargeOvercurrentDelaySeconds" CType.uint8,
    Member.mk "DischargeOvercurrentDelaySeconds" CType.uint16,
    Member.mk "TokenChargeOvercurrentProtectionAmpere" CType.uint8,
    Member.mk "ChargeOvercurrentProtectionAmpere" CType.uint16,
    Member.mk "TokenChargeOvercurrentDelaySeconds" CType.uint8,
    Member.mk "ChargeOvercurrentDelaySeconds" CType.uint16,
    Member.mk "TokenBalancingStartVoltage" CType.uint8,
    Member.mk "BalancingStartMillivolt" CType.uint16,
    Member.mk "TokenBalancingStartDifferentialVoltage" CType.uint8,
    Member.mk "BalancingStartDifferentialMillivolt" CType.uint16,
    Member.mk "TokenBalancingState" CType.uint8,
    Member.mk "BalancingIsEnabled" CType.uint8,
    Member.mk "TokenPowerMosFetTemperatureProtection" CType.uint8,
    Member.mk "PowerMosFetTemperatureProtection" CType.uint16,
    Member.mk "TokenPowerMosFetRecoveryTemperature" CType.uint8,
    Member.mk "PowerMosFetRecoveryTemperature" CType.uint16,
    Member.mk "TokenSensor1TemperatureProtection" CType.uint8,
    Member.mk "Sensor1TemperatureProtection" CType.uint16,
    Member.mk "TokenSensor1RecoveryTemperature" CType.uint8,
    Member.mk "Sensor1RecoveryTemperature" CType.uint16,
    Member.mk "TokenBatteryDifferenceTemperatureProtection" CType.uint8,
    Member.mk "BatteryDifferenceTemperatureProtection" CType.uint16,
    Member.mk "TokenChargeOvertemperatureProtection" CType.uint8,
    Member.mk "ChargeOvertemperatureProtection" CType.uint16,
    Member.mk "TokenDischargeOvertemperatureProtection" CType.uint8,
    Member.mk "DischargeOvertemperatureProtection" CType.uint16,
    Member.mk "TokenChargeUndertemperatureProtection" CType.uint8,
    Member.mk "ChargeUndertemperatureProtection" CType.int16,
    Member.mk "TokenChargeRecoveryUndertemperature" CType.uint8,
    Member.mk "ChargeRecoveryUndertemperature" CType.int16,
    Member.mk "TokenDischargeUndertemperatureProtection" CType.uint8,
    Member.mk "DischargeUndertemperatureProtection" CType.int16,
    Member.mk "TokenDischargeRecoveryUndertemperature" CType.uint8,
    Member.mk "DischargeRecoveryUndertemperature" CType.int16,
    Member.mk "TokenBatteryCellCount" CType.uint8,
    Member.mk "BatteryCellCount" CType.uint8,
    Member.mk "TokenTotalCapacity" CType.uint8,
    Member.mk "TotalCapacityAmpereHour" CType.uint32,
    Member.mk "TokenChargeMosFetState" CType.uint8,
    Member.mk "ChargeIsEnabled" CType.uint8,
    Member.mk "TokenDischargeMosFetState" CType.uint8,
    Member.mk "DischargeIsEnabled" CType.uint8,
    Member.mk "TokenCurrentCalibration" CType.uint8,
    Member.mk "CurrentCalibrationMilliampere" CType.uint16,
    Member.mk "TokenBoardAddress" CType.uint8,
    Member.mk "BoardAddress" CType.uint8,
    Member.mk "TokenBatteryType" CType.uint8,
    Member.mk "BatteryType" CType.uint8,
    Member.mk "TokenSleepWaitingTime" CType.uint8,
    Member.mk "SleepWaitingTimeSeconds" CType.uint16,
    Member.mk "TokenLowCapacityAlarm" CType.uint8,
    Member.mk "LowCapacityAlarmPercent" CType.uint8,
    Member.mk "TokenModifyParameterPassword" CType.uint8,
    Member.mk "ModifyParameterPassword" (CType.chars 10),
    Member.mk "TokenDedicatedChargerSwitchState" CType.uint8,
    Member.mk "DedicatedChargerSwitchIsActive" CType.uint8,
    Member.mk "TokenDeviceIdString" CType.uint8,
    Member.mk "DeviceIdString" (CType.chars 8),
    Member.mk "TokenManufacturerDate" CType.uint8,
    Member.mk "ManufacturerDate" (CType.chars 4),
    Member.mk "TokenSystemWorkingMinutes" CType.uint8,
    Member.mk "SystemWorkingMinutes" CType.uint32,
    Member.mk "TokenSoftwareVersionNumber" CType.uint8,
    Member.mk "SoftwareVersionNumber" (CType.chars 15),
    Member.mk "TokenStartCurrentCalibration" CType.uint8,
    Member.mk "StartCurrentCalibration" CType.uint8,
    Member.mk "TokenActualBatteryCapacity" CType.uint8,
    Member.mk "ActualBatteryCapacityAmpereHour" CType.uint32,
    Member.mk "TokenManufacturerId" CType.uint8,
    Member.mk "ManufacturerId" (CType.chars 24),
    Member.mk "TokenProtocolVersionNumber" CType.uint8,
    Member.mk "ProtocolVersionNumber" CType.uint8 ]

/-! ## Bit-field structures of the alarm and status unions -/

/-- One member of a bit-field structure: its name and its width in bits (a
plain `uint8_t` member has 8). -/
structure BitMember where
  name : String
  bits : Nat
  deriving DecidableEq, Repr

/-- The members of `AlarmUnion.AlarmBits`, in declaration order. -/
def AlarmBits : List BitMember :=
  [ BitMember.mk "Sensor2OvertemperatureAlarm" 1,
    BitMember.mk "Sensor1Or2UndertemperatureAlarm" 1,
    BitMember.mk "CellOvervoltageAlarm" 1,
    BitMember.mk "CellUndervoltageAlarm" 1,
    BitMember.mk "_309_A_ProtectionAlarm" 1,
    BitMember.mk "_309_B_ProtectionAlarm" 1,
    BitMember.mk "Reserved1Alarm" 1,
    BitMember.mk "Reserved2Alarm" 1,
    BitMember.mk "LowCapacityAlarm" 1,
    BitMember.mk "PowerMosFetOvertemperatureAlarm" 1,
    BitMember.mk "ChargeOvervoltageAlarm" 1,
    BitMember.mk "DischargeUndervoltageAlarm" 1,
    BitMember.mk "Sensor1Or2OvertemperatureAlarm" 1,
    BitMember.mk "ChargeOvercurrentAlarm" 1,
    BitMember.mk "DischargeOvercurrentAlarm" 1,
    BitMember.mk "CellVoltageDifferenceAlarm" 1 ]

/-- The members of `StatusUnion.StatusBits`, in declaration order. -/
def StatusBits : List BitMember :=
  [ BitMember.mk "ReservedStatusHighByte" 8,
    BitMember.mk "ChargeMosFetActive" 1,
    BitMember.mk "DischargeMosFetActive" 1,
    BitMember.mk "BalancerActive" 1,
    BitMember.mk "BatteryDown" 1,
    BitMember.mk "ReservedStatus" 4 ]

/-- Bit offset of the named member from the start of the structure.  Members are
allocated in declaration order, each byte being filled from its least
significant bit upwards, as the compiler of the little-endian host does. -/
def bitOffsetOf : List BitMember → String → Option Nat
  | [], _ => none
  | m :: ms, n =>
    if m.name = n then some 0 else (bitOffsetOf ms n).map (· + m.bits)

/-- Width in bits of the named member. -/
def bitWidthOf (ms : List BitMember) (n : String) : Option Nat :=
  (ms.find? fun m => m.name = n).map (·.bits)

/-- Value of the named member read from the bytes `mem` of the structure
(`mem[0]` is the byte at the lowest address). -/
def readMember (ms : List BitMember) (mem : List Nat) (n : String) : Option Nat :=
  match bitOffsetOf ms n, bitWidthOf ms n with
  | some off, some w => some (mem.getD (off / 8) 0 / 2 ^ (off % 8) % 2 ^ w)
  | _, _ => none

/-- Value of a one-bit `bool` member read from the bytes of the structure. -/
def readFlag (ms : List BitMember) (mem : List Nat) (n : String) : Option Bool :=
  (readMember ms mem n).map (· != 0)

/-- For every member: its name, the index of the byte that holds it and its mask
within that byte. -/
def bitTable (ms : List BitMember) : List (String × Nat × Nat) :=
  ms.filterMap fun m =>
    (bitOffsetOf ms m.name).map fun off =>
      (m.name, off / 8, (2 ^ m.bits - 1) * 2 ^ (off % 8))

/-- The `uint16_t` member of a union (`AlarmsAsWord`, `StatusAsWord`) as the
little-endian host reads it from the two bytes of the union. -/
def unionAsWord (mem : List Nat) : Nat :=
  mem.getD 0 0 + 256 * mem.getD 1 0

/-- The bytes of an alarm or status union after the reply was received: the
frame buffer is not swapped, so the first byte on the wire has the lower
address. -/
def unionBytes (firstWireByte secondWireByte : Nat) : List Nat :=
  [firstWireByte, secondWireByte]

/-- The alarm flags that are not named `Reserved...`. -/
def definedAlarmBits : List BitMember :=
  AlarmBits.filter fun m => !("Reserved".toList.isPrefixOf m.name.toList)

/-! ## Layout of a reply frame -/

/-- Value of a 16 bit field whose bytes are `hi`, `lo` in wire (big-endian)
order, i.e. `swap()` of the stored word. -/
def bigEndian16 (hi lo : Nat) : Nat := hi * 256 + lo

/-- Index in a buffer of `len` bytes of the named member of the trailer, which
occupies the last `JK_BMS_FRAME_TRAILER_LENGTH` bytes. -/
def trailerFieldIndex (len : Nat) (n : String) : Option Nat :=
  (offsetOf JKFrameTailStruct n).map fun off => len - JK_BMS_FRAME_TRAILER_LENGTH + off

/-- The members of a whole reply frame with `n` cell entries: header, the cell
info token `0x79` with its length byte, the cell entries, the reply structure
and the trailer. -/
def replyFrameLayout (n : Nat) : List Member :=
  JKFrameHeaderStruct
    ++ [Member.mk "TokenCellInfo" CType.uint8, Member.mk "CellInfoLength" CType.uint8]
    ++ (List.replicate n JKCellInfoStructMembers).flatten
    ++ JKReplyStruct
    ++ JKFrameTailStruct

/-- Number of bytes of a reply frame with `n` cell entries. -/
def replyFrameLength (n : Nat) : Nat := wireSize (replyFrameLayout n)

/-! ## Decoding of temperature and current -/

/-- Modelled from the spec: the body of `getTemperature`, of which JK-BMS.h has
only the prototype `int16_t getTemperature(uint16_t aJKRAWTemperature)`.  A raw
value in [0, 100] maps to itself, a raw value in (100, 140] maps to
`100 - raw`, and a value above 140 is out of range and flagged, here by `none`. -/
def getTemperature (aJKRAWTemperature : Nat) : Option Int :=
  if aJKRAWTemperature ≤ 100 then some (aJKRAWTemperature : Int)
  else if aJKRAWTemperature ≤ 140 then some (100 - (aJKRAWTemperature : Int))
  else none

/-- Modelled from the spec: the body of `getCurrent`, of which JK-BMS.h has only
the prototype `int16_t getCurrent(uint16_t aJKRAWCurrent)`.  The raw value is in
host order.  When `ProtocolVersionNumber` is 1 (the newer convention) the
magnitude is the low 15 bits and the top bit is the sign, 0 for discharging
(negative) and 1 for charging (positive).  The empirical scale of the older
convention is not written down and is taken as the parameter `oldScale`. -/
def getCurrent (oldScale : Nat → Int) (ProtocolVersionNumber : Nat)
    (aJKRAWCurrent : Nat) : Int :=
  if ProtocolVersionNumber = 1 then
    if aJKRAWCurrent / 2 ^ 15 % 2 = 1 then ((aJKRAWCurrent % 2 ^ 15 : Nat) : Int)
    else -((aJKRAWCurrent % 2 ^ 15 : Nat) : Int)
  else oldScale aJKRAWCurrent

/-- Range of the `int16_t` result type. -/
def fitsInt16 (x : Int) : Prop := -(2 ^ 15) ≤ x ∧ x < 2 ^ 15

/-! ## Cell voltages -/

/-- One entry of the cell array, `struct JKCellInfoStruct`, in host order. -/
structure JKCellInfoStruct where
  CellNumber : Nat
  CellMillivolt : Nat
  deriving DecidableEq, Repr

/-- The converted cell data, `struct JKConvertedCellInfoStruct`. -/
structure JKConvertedCellInfoStruct where
  NumberOfCellInfoEnties : Nat
  CellInfoStructArray : List JKCellInfoStruct
  MinimumVoltagCellIndex : Nat
  MaximumVoltagCellIndex : Nat
  DeltaCellMillivolt : Nat
  AverageCellMillivolt : Nat
  deriving DecidableEq, Repr

/-- Modelled from the spec: the walk over the cell sub-block inside
`fillJKConvertedCellInfo`, `count` entries of three bytes each: the cell number,
then the millivolt value in wire order. -/
def decodeCellEntries : Nat → List Nat → List JKCellInfoStruct
  | 0, _ => []
  | k + 1, bytes =>
    JKCellInfoStruct.mk (bytes.getD 0 0) (bigEndian16 (bytes.getD 1 0) (bytes.getD 2 0))
      :: decodeCellEntries k (bytes.drop 3)

/-- Running values of the single pass over the cell voltages. -/
structure CellScan where
  minIndex : Nat
  minMillivolt : Nat
  maxIndex : Nat
  maxMillivolt : Nat
  sum : Nat
  deriving DecidableEq, Repr

/-- Modelled from the spec: one step of the single pass inside
`fillJKConvertedCellInfo`, at array position `i` with voltage `v`: a new minimum
or maximum is taken only when strictly smaller or larger, so the first
occurrence wins. -/
def scanCell (acc : CellScan) (i v : Nat) : CellScan :=
  { minIndex := if v < acc.minMillivolt then i else acc.minIndex
    minMillivolt := if v < acc.minMillivolt then v else acc.minMillivolt
    maxIndex := if acc.maxMillivolt < v then i else acc.maxIndex
    maxMillivolt := if acc.maxMillivolt < v then v else acc.maxMillivolt
    sum := acc.sum + v }

/-- Modelled from the spec: the single pass inside `fillJKConvertedCellInfo` over
the voltages from array position `i` on. -/
def scanCells : List Nat → Nat → CellScan → CellScan
  | [], _, acc => acc
  | v :: vs, i, acc => scanCells vs (i + 1) (scanCell acc i v)

/-- Modelled from the spec: the single pass inside `fillJKConvertedCellInfo` over
all voltages, started from the first entry. -/
def cellStatistics (millivolts : List Nat) : CellScan :=
  scanCells millivolts 0
    { minIndex := 0, minMillivolt := millivolts.getD 0 0,
      maxIndex := 0, maxMillivolt := millivolts.getD 0 0, sum := 0 }

/-- Modelled from the spec: the body of `fillJKConvertedCellInfo`, of which
JK-BMS.h has only the prototype.  The length in bytes of the cell sub-block is
the byte at `JK_BMS_FRAME_INDEX_OF_CELL_INFO_LENGTH`; the entry count is that
length divided by 3; more entries than `MAXIMUM_NUMBER_OF_CELLS` is an error
(`none`); the entries are decoded in wire order and a single pass gives the
minimum and maximum index, the delta and the average (integer division). -/
def fillJKConvertedCellInfo (frame : List Nat) : Option JKConvertedCellInfoStruct :=
  let count := frame.getD JK_BMS_FRAME_INDEX_OF_CELL_INFO_LENGTH 0 / 3
  if MAXIMUM_NUMBER_OF_CELLS < count then none
  else
    let cells := decodeCellEntries count
      (frame.drop (JK_BMS_FRAME_INDEX_OF_CELL_INFO_LENGTH + 1))
    let scan := cellStatistics (cells.map fun c => c.CellMillivolt)
    some
      { NumberOfCellInfoEnties := count
        CellInfoStructArray := cells
        MinimumVoltagCellIndex := scan.minIndex
        MaximumVoltagCellIndex := scan.maxIndex
        DeltaCellMillivolt := scan.maxMillivolt - scan.minMillivolt
        AverageCellMillivolt := scan.sum / count }

/-- Position `i` is the first one of `vs` that holds the smallest value. -/
def IsFirstMinimumAt (vs : List Nat) (i : Nat) : Prop :=
  i < vs.length ∧ (∀ j, j < vs.length → vs.getD i 0 ≤ vs.getD j 0)
    ∧ ∀ j, j < i → vs.getD i 0 < vs.getD j 0

/-- Position `i` is the first one of `vs` that holds the largest value. -/
def IsFirstMaximumAt (vs : List Nat) (i : Nat) : Prop :=
  i < vs.length ∧ (∀ j, j < vs.length → vs.getD j 0 ≤ vs.getD i 0)
    ∧ ∀ j, j < i → vs.getD j 0 < vs.getD i 0

/-- What the pass has established after the voltages `pre`. -/
def ScanInvariant (pre : List Nat) (acc : CellScan) : Prop :=
  IsFirstMinimumAt pre acc.minIndex ∧ pre.getD acc.minIndex 0 = acc.minMillivolt
    ∧ IsFirstMaximumAt pre acc.maxIndex ∧ pre.getD acc.maxIndex 0 = acc.maxMillivolt
    ∧ acc.sum = pre.sum

/-! ## Frame validation -/

/-- Modelled from the spec: the failures of frame validation, which is not part
of JK-BMS.h. -/
inductive ValidationError where
  | ChecksumMismatch
  | EndTokenMismatch
  | Truncated
  deriving DecidableEq, Repr

instance : DecidableEq (Except ValidationError (List Nat))
  | Except.ok a, Except.ok b =>
    if h : a = b then isTrue (by rw [h]) else isFalse (by intro e; cases e; exact h rfl)
  | Except.error a, Except.error b =>
    if h : a = b then isTrue (by rw [h]) else isFalse (by intro e; cases e; exact h rfl)
  | Except.ok _, Except.error _ => isFalse (by intro e; cases e)
  | Except.error _, Except.ok _ => isFalse (by intro e; cases e)

/-- Index of the end token in a buffer of `len` bytes: buffer length minus
trailer length plus the offset of `EndToken` in the trailer. -/
def endTokenIndex (len : Nat) : Nat :=
  (trailerFieldIndex len "EndToken").getD 0

/-- Index of the first byte of the checksum field in a buffer of `len` bytes. -/
def checksumIndex (len : Nat) : Nat :=
  (trailerFieldIndex len "Checksum").getD 0

/-- Modelled from the spec: the checksum computed by the validator, the sum
modulo 2^16 of all bytes from the first byte of the frame up to, not including,
the checksum field. -/
def computedChecksum (buffer : List Nat) : Nat :=
  (buffer.take (checksumIndex buffer.length)).sum % 2 ^ 16

/-- Modelled from the spec: the checksum the validator compares with, the
big-endian value stored in the trailer. -/
def storedChecksum (buffer : List Nat) : Nat :=
  bigEndian16 (buffer.getD (checksumIndex buffer.length) 0)
    (buffer.getD (checksumIndex buffer.length + 1) 0)

/-- Modelled from the spec: the frame validator, which is not part of JK-BMS.h.
A buffer shorter than the minimal frame length is `Truncated`.  The computed
checksum must equal the stored one, else `ChecksumMismatch`; the byte at the
end-token index must be the end token, else `EndTokenMismatch`.  The spec lists
the two trailer checks without an order between them and requires
`ChecksumMismatch` for every single corrupted byte inside the checksum-covered
range, a range that contains the end token; so a failed checksum is reported
first.  Otherwise the buffer is returned as the validated frame. -/
def validate (buffer : List Nat) : Except ValidationError (List Nat) :=
  if buffer.length < MINIMAL_JK_BMS_FRAME_LENGTH then
    Except.error ValidationError.Truncated
  else if computedChecksum buffer ≠ storedChecksum buffer then
    Except.error ValidationError.ChecksumMismatch
  else if buffer.getD (endTokenIndex buffer.length) 0 ≠ JK_FRAME_END_BYTE then
    Except.error ValidationError.EndTokenMismatch
  else Except.ok buffer

/-! ## Frame receiver -/

/-- Modelled from the spec: the states of the frame receiver, whose body is not
part of JK-BMS.h. -/
inductive ReceiverState where
  | AwaitingStartByte0
  | AwaitingStartByte1
  | AccumulatingHeader
  | AccumulatingBody
  | AccumulatingTail
  | Complete
  | Error
  deriving DecidableEq, Repr

/-- Modelled from the spec: the receiver session, its state and the frame buffer
`JKReplyFrameBuffer`, whose length is the write cursor `sReplyFrameBufferIndex`. -/
structure FrameReceiver where
  state : ReceiverState
  JKReplyFrameBuffer : List Nat
  deriving DecidableEq, Repr

/-- Modelled from the spec: the body of `initJKReplyFrameBuffer`, of which
JK-BMS.h has only the prototype; the reset leaves an empty buffer and waits for
the first start byte. -/
def initJKReplyFrameBuffer : FrameReceiver :=
  { state := ReceiverState.AwaitingStartByte0, JKReplyFrameBuffer := [] }

/-- Modelled from the spec: the expected total frame length inside
`readJK_BMSStatusFrameByte`, known once the two bytes of the length field are in
the buffer: the value of the length field plus 2. -/
def expectedTotalLength (buffer : List Nat) : Option Nat :=
  if 4 ≤ buffer.length then some (bigEndian16 (buffer.getD 2 0) (buffer.getD 3 0) + 2)
  else none

/-- Modelled from the spec: the accumulating state of the receiver that belongs
to a cursor position: the header are the first `JK_BMS_FRAME_HEADER_LENGTH`
bytes, the tail the last `JK_BMS_FRAME_TRAILER_LENGTH` bytes of the expected
total. -/
def accumulatingState (cursor total : Nat) : ReceiverState :=
  if cursor < JK_BMS_FRAME_HEADER_LENGTH then ReceiverState.AccumulatingHeader
  else if cursor + JK_BMS_FRAME_TRAILER_LENGTH < total then ReceiverState.AccumulatingBody
  else ReceiverState.AccumulatingTail

/-- Modelled from the spec: the accumulating part of
`readJK_BMSStatusFrameByte`.  A byte is appended; a full buffer is an overflow
(error, buffer reset); once the expected total length has been accumulated the
frame is complete. -/
def accumulateByte (r : FrameReceiver) (b : Nat) : FrameReceiver × Nat :=
  if JKReplyFrameBufferSize ≤ r.JKReplyFrameBuffer.length then
    ({ state := ReceiverState.Error, JKReplyFrameBuffer := [] }, JK_BMS_RECEIVE_ERROR)
  else
    let buffer := r.JKReplyFrameBuffer ++ [b]
    match expectedTotalLength buffer with
    | none =>
      ({ state := ReceiverState.AccumulatingHeader, JKReplyFrameBuffer := buffer },
        JK_BMS_RECEIVE_OK)
    | some total =>
      if total ≤ buffer.length then
        ({ state := ReceiverState.Complete, JKReplyFrameBuffer := buffer },
          JK_BMS_RECEIVE_FINISHED)
      else
        ({ state := accumulatingState buffer.length total, JKReplyFrameBuffer := buffer },
          JK_BMS_RECEIVE_OK)

/-- Modelled from the spec: the body of `readJK_BMSStatusFrameByte`, of which
JK-BMS.h has only the prototype and the three result codes; the received byte is
the argument `b`.  Before the first start byte any other byte is skipped
silently; a wrong second start byte is an error; afterwards bytes are appended
until the expected total length is reached; a resolved session (complete or
error) takes no further byte before it is reset. -/
def readJK_BMSStatusFrameByte (r : FrameReceiver) (b : Nat) : FrameReceiver × Nat :=
  match r.state with
  | ReceiverState.AwaitingStartByte0 =>
    if b = JK_FRAME_START_BYTE_0 then
      ({ state := ReceiverState.AwaitingStartByte1, JKReplyFrameBuffer := [b] },
        JK_BMS_RECEIVE_OK)
    else (r, JK_BMS_RECEIVE_OK)
  | ReceiverState.AwaitingStartByte1 =>
    if b = JK_FRAME_START_BYTE_1 then
      ({ state := ReceiverState.AccumulatingHeader,
         JKReplyFrameBuffer := r.JKReplyFrameBuffer ++ [b] }, JK_BMS_RECEIVE_OK)
    else ({ state := ReceiverState.Error, JKReplyFrameBuffer := [] }, JK_BMS_RECEIVE_ERROR)
  | ReceiverState.AccumulatingHeader => accumulateByte r b
  | ReceiverState.AccumulatingBody => accumulateByte r b
  | ReceiverState.AccumulatingTail => accumulateByte r b
  | ReceiverState.Complete => (r, JK_BMS_RECEIVE_ERROR)
  | ReceiverState.Error => (r, JK_BMS_RECEIVE_ERROR)

/-- Feeds the bytes one at a time and collects the result code of every call. -/
def feedBytes : FrameReceiver → List Nat → FrameReceiver × List Nat
  | r, [] => (r, [])
  | r, b :: bs =>
    ((feedBytes (readJK_BMSStatusFrameByte r b).1 bs).1,
      (readJK_BMSStatusFrameByte r b).2 :: (feedBytes (readJK_BMSStatusFrameByte r b).1 bs).2)

/-- A well-formed reply frame: bytes only, the two start bytes, a length field
whose value plus 2 is the number of bytes of the frame, room for the trailer
after the length field, the end token in the trailer and a correct checksum. -/
def WellFormedFrame (frame : List Nat) : Prop :=
  (∀ b ∈ frame, b < 256)
    ∧ 4 + JK_BMS_FRAME_TRAILER_LENGTH ≤ frame.length
    ∧ frame.getD 0 0 = JK_FRAME_START_BYTE_0
    ∧ frame.getD 1 0 = JK_FRAME_START_BYTE_1
    ∧ frame.length = bigEndian16 (frame.getD 2 0) (frame.getD 3 0) + 2
    ∧ frame.getD (endTokenIndex frame.length) 0 = JK_FRAME_END_BYTE
    ∧ computedChecksum frame = storedChecksum frame

instance (frame : List Nat) : Decidable (WellFormedFrame frame) := by
  unfold WellFormedFrame
  infer_instance

/-- A reply frame with one cell entry (cell 1 at 3300 mV) and no further
fields: header, token `0x79`, length byte 3, the entry, trailer; 25 bytes. -/
def sampleFrame : List Nat :=
  [0x4E, 0x57, 0x00, 0x17, 0x00, 0x00, 0x00, 0x00, 0x06, 0x00, 0x01,
   0x79, 0x03, 0x01, 0x0C, 0xE4,
   0x00, 0x00, 0x00, 0x01, 0x68, 0x00, 0x00, 0x02, 0x99]

/-- A frame of 351 bytes, one more than the buffer holds: header start with
length field 349, zero bytes, trailer. -/
def longFrame : List Nat :=
  [0x4E, 0x57, 0x01, 0x5D] ++ List.replicate 338 0
    ++ [0x00, 0x00, 0x00, 0x00, 0x68, 0x00, 0x00, 0x01, 0x6B]

/-- A reply frame start with the three cell entries 3300, 3350 and 3280 mV. -/
def threeCellFrame : List Nat :=
  [0x4E, 0x57, 0x00, 0x1D, 0x00, 0x00, 0x00, 0x00, 0x06, 0x00, 0x01,
   0x79, 0x09, 0x01, 0x0C, 0xE4, 0x02, 0x0D, 0x16, 0x03, 0x0C, 0xD0]

/-- The minimum-length check on a buffer of `len` bytes. -/
def passesMinimumLengthCheck (len : Nat) : Bool :=
  decide (MINIMAL_JK_BMS_FRAME_LENGTH ≤ len)

/-- A buffer of `len` bytes holds a complete header followed by a complete
trailer that does not overlap it. -/
def holdsHeaderThenTrailer (len : Nat) : Prop :=
  JK_BMS_FRAME_TRAILER_LENGTH ≤ len
    ∧ JK_BMS_FRAME_HEADER_LENGTH ≤ len - JK_BMS_FRAME_TRAILER_LENGTH

/-! ## Theorems: frame layout -/

theorem wireSize_append (xs ys : List Member) :
    wireSize (xs ++ ys) = wireSize xs + wireSize ys := by
  simp [wireSize]

theorem wireSize_cells (n : Nat) :
    wireSize (List.replicate n JKCellInfoStructMembers).flatten = 3 * n := by
  induction n with
  | zero => rfl
  | succ k ih =>
    rw [List.replicate_succ, List.flatten_cons, wireSize_append, ih]
    have : wireSize JKCellInfoStructMembers = 3 := by decide
    omega

theorem wireSize_JKReplyStruct : wireSize JKReplyStruct = 221 := by
  rfl

/-- C8: the wire widths of the header members (2, 2, 4, 1, 1, 1) sum to
`JK_BMS_FRAME_HEADER_LENGTH = 11`, those of the trailer members (4, 1, 2, 2) sum
to `JK_BMS_FRAME_TRAILER_LENGTH = 9`; in a buffer of `n` bytes that ends with the
trailer the end token is at index `n - 5` and the two checksum bytes are at
`n - 2` and `n - 1`; the start bytes read big-endian give `0x4E57`. -/
theorem frame_layout_constants (n : Nat) (hn : JK_BMS_FRAME_TRAILER_LENGTH ≤ n) :
    (JKFrameHeaderStruct.map fun m => (m.name, m.type.wireWidth))
        = [("StartFrameToken", 2), ("LengthOfFrame", 2), ("BMS_ID", 4),
           ("Function", 1), ("FrameSource", 1), ("TransportType", 1)]
      ∧ wireSize JKFrameHeaderStruct = JK_BMS_FRAME_HEADER_LENGTH
      ∧ JK_BMS_FRAME_HEADER_LENGTH = 11
      ∧ (JKFrameTailStruct.map fun m => (m.name, m.type.wireWidth))
        = [("RecordNumber", 4), ("EndToken", 1), ("UnusedChecksum", 2), ("Checksum", 2)]
      ∧ wireSize JKFrameTailStruct = JK_BMS_FRAME_TRAILER_LENGTH
      ∧ JK_BMS_FRAME_TRAILER_LENGTH = 9
      ∧ JK_FRAME_END_BYTE = 0x68
      ∧ trailerFieldIndex n "EndToken" = some (n - 5)
      ∧ trailerFieldIndex n "Checksum" = some (n - 2)
      ∧ (trailerFieldIndex n "Checksum").map (· + 1) = some (n - 1)
      ∧ bigEndian16 JK_FRAME_START_BYTE_0 JK_FRAME_START_BYTE_1 = 0x4E57 := by
  have hE : offsetOf JKFrameTailStruct "EndToken" = some 4 := by decide
  have hC : offsetOf JKFrameTailStruct "Checksum" = some 7 := by decide
  have h9 : JK_BMS_FRAME_TRAILER_LENGTH = 9 := rfl
  rw [h9] at hn
  refine ⟨by decide, by decide, rfl, by decide, by decide, rfl, rfl, ?_, ?_, ?_, by decide⟩
  · simp only [trailerFieldIndex, hE, h9, Option.map_some']
    congr 1; omega
  · simp only [trailerFieldIndex, hC, h9, Option.map_some']
    congr 1; omega
  · simp only [trailerFieldIndex, hC, h9, Option.map_some']
    congr 1; omega

/-- Witness for C8 at a buffer of 25 bytes. -/
theorem frame_layout_constants_witness :
    JK_BMS_FRAME_TRAILER_LENGTH ≤ 25
      ∧ trailerFieldIndex 25 "EndToken" = some 20
      ∧ trailerFieldIndex 25 "Checksum" = some 23 :=
  ⟨by decide, (frame_layout_constants 25 (by decide)).2.2.2.2.2.2.2.1,
    (frame_layout_constants 25 (by decide)).2.2.2.2.2.2.2.2.1⟩

/-- C9 (as stated, refuted): the minimal frame length 19 is smaller than header
plus trailer (11 + 9), and a buffer of 19 bytes passes the minimum-length check
although its trailer would start at index 10, inside the header. -/
theorem minimal_length_below_header_plus_trailer :
    ¬ (MINIMAL_JK_BMS_FRAME_LENGTH
        ≥ JK_BMS_FRAME_HEADER_LENGTH + JK_BMS_FRAME_TRAILER_LENGTH)
      ∧ passesMinimumLengthCheck 19 = true
      ∧ ¬ holdsHeaderThenTrailer 19 := by
  refine ⟨by decide, by decide, ?_⟩
  intro h
  exact absurd h.2 (by decide)

/-- C9 (amended): for every buffer length that passes the minimum-length check
the end-token index `len - JK_BMS_FRAME_TRAILER_LENGTH + 4` is not inside the
header; the minimal length is one less than header plus trailer, so header and
trailer are both complete and disjoint from `MINIMAL_JK_BMS_FRAME_LENGTH + 1`
bytes on, and in particular when the checked length is the value of
`LengthOfFrame`, which excludes the two bytes of `StartFrameToken`. -/
theorem end_token_index_not_in_header (len : Nat)
    (hlen : passesMinimumLengthCheck len = true) :
    trailerFieldIndex len "EndToken" = some (len - JK_BMS_FRAME_TRAILER_LENGTH + 4)
      ∧ JK_BMS_FRAME_HEADER_LENGTH ≤ len - JK_BMS_FRAME_TRAILER_LENGTH + 4
      ∧ len - JK_BMS_FRAME_TRAILER_LENGTH + 4 < len
      ∧ MINIMAL_JK_BMS_FRAME_LENGTH + 1
          = JK_BMS_FRAME_HEADER_LENGTH + JK_BMS_FRAME_TRAILER_LENGTH
      ∧ (MINIMAL_JK_BMS_FRAME_LENGTH + 1 ≤ len → holdsHeaderThenTrailer len)
      ∧ holdsHeaderThenTrailer (len + 2) := by
  have hE : offsetOf JKFrameTailStruct "EndToken" = some 4 := by decide
  have hm : MINIMAL_JK_BMS_FRAME_LENGTH ≤ len := by
    simpa [passesMinimumLengthCheck] using hlen
  simp only [MINIMAL_JK_BMS_FRAME_LENGTH] at hm
  refine ⟨by simp [trailerFieldIndex, hE], ?_, ?_, rfl, ?_, ?_⟩
  · simp only [JK_BMS_FRAME_HEADER_LENGTH, JK_BMS_FRAME_TRAILER_LENGTH]; omega
  · simp only [JK_BMS_FRAME_TRAILER_LENGTH]; omega
  · intro h
    simp only [holdsHeaderThenTrailer, MINIMAL_JK_BMS_FRAME_LENGTH,
      JK_BMS_FRAME_HEADER_LENGTH, JK_BMS_FRAME_TRAILER_LENGTH] at h ⊢
    omega
  · simp only [holdsHeaderThenTrailer, JK_BMS_FRAME_HEADER_LENGTH,
      JK_BMS_FRAME_TRAILER_LENGTH]
    omega

/-- Witness for the amended C9 at the minimal length 19, where the end token
is at index 14. -/
theorem end_token_index_not_in_header_witness :
    passesMinimumLengthCheck 19 = true
      ∧ trailerFieldIndex 19 "EndToken" = some 14
      ∧ JK_BMS_FRAME_HEADER_LENGTH ≤ 14 :=
  ⟨by decide, (end_token_index_not_in_header 19 (by decide)).1,
    (end_token_index_not_in_header 19 (by decide)).2.1⟩

/-- C10: for every cell count up to `MAXIMUM_NUMBER_OF_CELLS` the reply frame
(header, cell-info token and length byte, the cell entries, all members of
`JKReplyStruct`, trailer) has `11 + 2 + 3 n + 221 + 9` bytes, its cell-info length
byte is at index `JK_BMS_FRAME_INDEX_OF_CELL_INFO_LENGTH = 12`, it is at most 350
bytes long and every index into it is below the capacity of `JKReplyFrameBuffer`
and in the range of the 16 bit `sReplyFrameBufferIndex`. -/
theorem reply_frame_fits_buffer (n : Nat) (hn : n ≤ MAXIMUM_NUMBER_OF_CELLS) :
    replyFrameLength n
        = JK_BMS_FRAME_HEADER_LENGTH + 2 + 3 * n + wireSize JKReplyStruct
          + JK_BMS_FRAME_TRAILER_LENGTH
      ∧ offsetOf (replyFrameLayout n) "CellInfoLength"
          = some JK_BMS_FRAME_INDEX_OF_CELL_INFO_LENGTH
      ∧ JK_BMS_FRAME_INDEX_OF_CELL_INFO_LENGTH = 12
      ∧ replyFrameLength n ≤ 350
      ∧ replyFrameLength n ≤ JKReplyFrameBufferSize
      ∧ ∀ i, i < replyFrameLength n →
          i < JKReplyFrameBufferSize ∧ i < sReplyFrameBufferIndexRange := by
  have hlen : replyFrameLength n = 243 + 3 * n := by
    have h1 : wireSize JKFrameHeaderStruct = 11 := by decide
    have h2 : wireSize JKFrameTailStruct = 9 := by decide
    have h3 : wireSize [Member.mk "TokenCellInfo" CType.uint8,
        Member.mk "CellInfoLength" CType.uint8] = 2 := by decide
    simp only [replyFrameLength, replyFrameLayout, wireSize_append, wireSize_cells,
      wireSize_JKReplyStruct, h1, h2, h3]
    omega
  have hmax : n ≤ 24 := hn
  refine ⟨?_, ?_, rfl, ?_, ?_, ?_⟩
  · rw [hlen, wireSize_JKReplyStruct]
    simp only [JK_BMS_FRAME_HEADER_LENGTH, JK_BMS_FRAME_TRAILER_LENGTH]
    omega
  · simp [replyFrameLayout, JKFrameHeaderStruct, offsetOf, CType.wireWidth,
      JK_BMS_FRAME_INDEX_OF_CELL_INFO_LENGTH, JK_BMS_FRAME_HEADER_LENGTH]
  · omega
  · simp only [JKReplyFrameBufferSize]; omega
  · intro i hi
    simp only [JKReplyFrameBufferSize, sReplyFrameBufferIndexRange]
    omega

/-- Witness for C10 at the largest default cell count 24: the frame has 315
bytes. -/
theorem reply_frame_fits_buffer_witness :
    24 ≤ MAXIMUM_NUMBER_OF_CELLS
      ∧ replyFrameLength 24 ≤ 350
      ∧ offsetOf (replyFrameLayout 24) "CellInfoLength" = some 12 :=
  ⟨by decide, (reply_frame_fits_buffer 24 (by decide)).2.2.2.1,
    (reply_frame_fits_buffer 24 (by decide)).2.1⟩

/-! ## Theorems: alarm and status bits -/

theorem flag_eq_testBit (x k : Nat) : (x / 2 ^ k % 2 ^ 1 != 0) = x.testBit k := by
  rw [Nat.testBit_to_div_mod, pow_one]
  rcases Nat.mod_two_eq_zero_or_one (x / 2 ^ k) with h | h <;> simp [h]

theorem readFlag_at (ms : List BitMember) (mem : List Nat) (n : String) (off : Nat)
    (ho : bitOffsetOf ms n = some off) (hw : bitWidthOf ms n = some 1) :
    readFlag ms mem n = some ((mem.getD (off / 8) 0).testBit (off % 8)) := by
  simp only [readFlag, readMember, ho, hw, Option.map_some', flag_eq_testBit]

/-- C6: with the alarm bytes stored unswapped (`h` the first wire byte, `l` the
second), bits 0..5 of `h` are the six alarms declared first, bits 6 and 7 of `h`
are the reserved ones, bits 0..7 of `l` are the eight alarms declared last, each
read by its mask without reordering; 14 flags are not reserved, which is
`NUMBER_OF_DEFINED_ALARM_BITS`. -/
theorem alarm_bits_layout (h l : Nat) :
    bitTable AlarmBits
        = [ ("Sensor2OvertemperatureAlarm", 0, 0x01),
            ("Sensor1Or2UndertemperatureAlarm", 0, 0x02),
            ("CellOvervoltageAlarm", 0, 0x04),
            ("CellUndervoltageAlarm", 0, 0x08),
            ("_309_A_ProtectionAlarm", 0, 0x10),
            ("_309_B_ProtectionAlarm", 0, 0x20),
            ("Reserved1Alarm", 0, 0x40),
            ("Reserved2Alarm", 0, 0x80),
            ("LowCapacityAlarm", 1, 0x01),
            ("PowerMosFetOvertemperatureAlarm", 1, 0x02),
            ("ChargeOvervoltageAlarm", 1, 0x04),
            ("DischargeUndervoltageAlarm", 1, 0x08),
            ("Sensor1Or2OvertemperatureAlarm", 1, 0x10),
            ("ChargeOvercurrentAlarm", 1, 0x20),
            ("DischargeOvercurrentAlarm", 1, 0x40),
            ("CellVoltageDifferenceAlarm", 1, 0x80) ]
      ∧ readFlag AlarmBits (unionBytes h l) "Sensor2OvertemperatureAlarm" = some (h.testBit 0)
      ∧ readFlag AlarmBits (unionBytes h l) "Sensor1Or2UndertemperatureAlarm"
          = some (h.testBit 1)
      ∧ readFlag AlarmBits (unionBytes h l) "CellOvervoltageAlarm" = some (h.testBit 2)
      ∧ readFlag AlarmBits (unionBytes h l) "CellUndervoltageAlarm" = some (h.testBit 3)
      ∧ readFlag AlarmBits (unionBytes h l) "_309_A_ProtectionAlarm" = some (h.testBit 4)
      ∧ readFlag AlarmBits (unionBytes h l) "_309_B_ProtectionAlarm" = some (h.testBit 5)
      ∧ readFlag AlarmBits (unionBytes h l) "Reserved1Alarm" = some (h.testBit 6)
      ∧ readFlag AlarmBits (unionBytes h l) "Reserved2Alarm" = some (h.testBit 7)
      ∧ readFlag AlarmBits (unionBytes h l) "LowCapacityAlarm" = some (l.testBit 0)
      ∧ readFlag AlarmBits (unionBytes h l) "PowerMosFetOvertemperatureAlarm"
          = some (l.testBit 1)
      ∧ readFlag AlarmBits (unionBytes h l) "ChargeOvervoltageAlarm" = some (l.testBit 2)
      ∧ readFlag AlarmBits (unionBytes h l) "DischargeUndervoltageAlarm" = some (l.testBit 3)
      ∧ readFlag AlarmBits (unionBytes h l) "Sensor1Or2OvertemperatureAlarm"
          = some (l.testBit 4)
      ∧ readFlag AlarmBits (unionBytes h l) "ChargeOvercurrentAlarm" = some (l.testBit 5)
      ∧ readFlag AlarmBits (unionBytes h l) "DischargeOvercurrentAlarm" = some (l.testBit 6)
      ∧ readFlag AlarmBits (unionBytes h l) "CellVoltageDifferenceAlarm" = some (l.testBit 7)
      ∧ definedAlarmBits.length = NUMBER_OF_DEFINED_ALARM_BITS
      ∧ NUMBER_OF_DEFINED_ALARM_BITS = 14 := by
  refine ⟨by decide, ?_, ?_, ?_, ?_, ?_, ?_, ?_, ?_, ?_, ?_, ?_, ?_, ?_, ?_, ?_, ?_,
    by decide, rfl⟩
  · exact readFlag_at _ _ _ 0 (by decide) (by decide)
  · exact readFlag_at _ _ _ 1 (by decide) (by decide)
  · exact readFlag_at _ _ _ 2 (by decide) (by decide)
  · exact readFlag_at _ _ _ 3 (by decide) (by decide)
  · exact readFlag_at _ _ _ 4 (by decide) (by decide)
  · exact readFlag_at _ _ _ 5 (by decide) (by decide)
  · exact readFlag_at _ _ _ 6 (by decide) (by decide)
  · exact readFlag_at _ _ _ 7 (by decide) (by decide)
  · exact readFlag_at _ _ _ 8 (by decide) (by decide)
  · exact readFlag_at _ _ _ 9 (by decide) (by decide)
  · exact readFlag_at _ _ _ 10 (by decide) (by decide)
  · exact readFlag_at _ _ _ 11 (by decide) (by decide)
  · exact readFlag_at _ _ _ 12 (by decide) (by decide)
  · exact readFlag_at _ _ _ 13 (by decide) (by decide)
  · exact readFlag_at _ _ _ 14 (by decide) (by decide)
  · exact readFlag_at _ _ _ 15 (by decide) (by decide)

/-- C7: with the status bytes stored unswapped (`h` the first wire byte, `l` the
second), `ReservedStatusHighByte` is `h` and is the low byte of `StatusAsWord`;
in `l` bit 0 is `ChargeMosFetActive`, bit 1 `DischargeMosFetActive`, bit 2
`BalancerActive`, bit 3 `BatteryDown` and bits 4..7 are `ReservedStatus`; the four
flags are the same for every other reserved byte `h2`. -/
theorem status_bits_layout (h l h2 : Nat) (hh : h < 256) (hl : l < 256) :
    bitTable StatusBits
        = [ ("ReservedStatusHighByte", 0, 0xFF),
            ("ChargeMosFetActive", 1, 0x01),
            ("DischargeMosFetActive", 1, 0x02),
            ("BalancerActive", 1, 0x04),
            ("BatteryDown", 1, 0x08),
            ("ReservedStatus", 1, 0xF0) ]
      ∧ readMember StatusBits (unionBytes h l) "ReservedStatusHighByte" = some h
      ∧ unionAsWord (unionBytes h l) % 256 = h
      ∧ unionAsWord (unionBytes h l) / 256 = l
      ∧ readFlag StatusBits (unionBytes h l) "ChargeMosFetActive" = some (l.testBit 0)
      ∧ readFlag StatusBits (unionBytes h l) "DischargeMosFetActive" = some (l.testBit 1)
      ∧ readFlag StatusBits (unionBytes h l) "BalancerActive" = some (l.testBit 2)
      ∧ readFlag StatusBits (unionBytes h l) "BatteryDown" = some (l.testBit 3)
      ∧ readMember StatusBits (unionBytes h l) "ReservedStatus" = some (l / 16)
      ∧ ∀ f ∈ ["ChargeMosFetActive", "DischargeMosFetActive", "BalancerActive",
            "BatteryDown"],
          readFlag StatusBits (unionBytes h2 l) f = readFlag StatusBits (unionBytes h l) f := by
  have e0 : bitOffsetOf StatusBits "ChargeMosFetActive" = some 8 := by decide
  have e1 : bitOffsetOf StatusBits "DischargeMosFetActive" = some 9 := by decide
  have e2 : bitOffsetOf StatusBits "BalancerActive" = some 10 := by decide
  have e3 : bitOffsetOf StatusBits "BatteryDown" = some 11 := by decide
  have w0 : bitWidthOf StatusBits "ChargeMosFetActive" = some 1 := by decide
  have w1 : bitWidthOf StatusBits "DischargeMosFetActive" = some 1 := by decide
  have w2 : bitWidthOf StatusBits "BalancerActive" = some 1 := by decide
  have w3 : bitWidthOf StatusBits "BatteryDown" = some 1 := by decide
  have er : bitOffsetOf StatusBits "ReservedStatusHighByte" = some 0 := by decide
  have wr : bitWidthOf StatusBits "ReservedStatusHighByte" = some 8 := by decide
  have es : bitOffsetOf StatusBits "ReservedStatus" = some 12 := by decide
  have ws : bitWidthOf StatusBits "ReservedStatus" = some 4 := by decide
  refine ⟨by decide, ?_, ?_, ?_, readFlag_at _ _ _ 8 e0 w0, readFlag_at _ _ _ 9 e1 w1,
    readFlag_at _ _ _ 10 e2 w2, readFlag_at _ _ _ 11 e3 w3, ?_, ?_⟩
  · simp only [readMember, er, wr, unionBytes]
    congr 1
    show h / 1 % 256 = h
    omega
  · show (h + 256 * l) % 256 = h
    omega
  · show (h + 256 * l) / 256 = l
    omega
  · simp only [readMember, es, ws, unionBytes]
    congr 1
    show l / 16 % 16 = l / 16
    omega
  · intro f hf
    simp only [List.mem_cons, List.mem_singleton, List.not_mem_nil, or_false] at hf
    rcases hf with rfl | rfl | rfl | rfl
    · rw [readFlag_at _ _ _ 8 e0 w0, readFlag_at _ _ _ 8 e0 w0]; rfl
    · rw [readFlag_at _ _ _ 9 e1 w1, readFlag_at _ _ _ 9 e1 w1]; rfl
    · rw [readFlag_at _ _ _ 10 e2 w2, readFlag_at _ _ _ 10 e2 w2]; rfl
    · rw [readFlag_at _ _ _ 11 e3 w3, readFlag_at _ _ _ 11 e3 w3]; rfl

/-- Witness for C7 at the status bytes `0x00, 0x07` (both MOSFETs and the balancer
active) against the reserved byte `0xFF`. -/
theorem status_bits_layout_witness :
    (0 : Nat) < 256 ∧ (7 : Nat) < 256
      ∧ readFlag StatusBits (unionBytes 0 7) "BalancerActive" = some (Nat.testBit 7 2)
      ∧ readFlag StatusBits (unionBytes 0 7) "BatteryDown" = some (Nat.testBit 7 3) :=
  ⟨by decide, by decide,
    (status_bits_layout 0 7 255 (by decide) (by decide)).2.2.2.2.2.2.1,
    (status_bits_layout 0 7 255 (by decide) (by decide)).2.2.2.2.2.2.2.1⟩

/-! ## Theorems: temperature and current -/

/-- C3: `getTemperature r` is `r` for `0 ≤ r ≤ 100` and `100 - r` for
`100 < r ≤ 140`; the results for `100 < r ≤ 140` are exactly the values from -40
to -1; `getTemperature` of 0, 99, 100, 101, 140 is 0, 99, 100, -1, -40. -/
theorem getTemperature_decode (r : Nat) :
    (r ≤ 100 → getTemperature r = some (r : Int))
      ∧ (100 < r → r ≤ 140 → getTemperature r = some (100 - (r : Int)))
      ∧ (∀ t : Int, (-40 ≤ t ∧ t ≤ -1) ↔
          ∃ q, 100 < q ∧ q ≤ 140 ∧ getTemperature q = some t)
      ∧ getTemperature 0 = some 0
      ∧ getTemperature 99 = some 99
      ∧ getTemperature 100 = some 100
      ∧ getTemperature 101 = some (-1)
      ∧ getTemperature 140 = some (-40) := by
  have hhi : ∀ q : Nat, 100 < q → q ≤ 140 →
      getTemperature q = some (100 - (q : Int)) := by
    intro q h1 h2
    have h3 : ¬ q ≤ 100 := by omega
    simp [getTemperature, h3, h2]
  refine ⟨?_, hhi r, ?_, by decide, by decide, by decide, by decide, by decide⟩
  · intro h
    simp [getTemperature, h]
  · intro t
    constructor
    · rintro ⟨h1, h2⟩
      refine ⟨(100 - t).toNat, by omega, by omega, ?_⟩
      rw [hhi _ (by omega) (by omega)]
      congr 1
      omega
    · rintro ⟨q, h1, h2, h3⟩
      rw [hhi q h1 h2] at h3
      have h4 : 100 - (q : Int) = t := Option.some.inj h3
      omega

/-- Witness for C3 at the raw value 120, decoded as -20. -/
theorem getTemperature_decode_witness :
    100 < 120 ∧ 120 ≤ 140 ∧ getTemperature 120 = some (100 - ((120 : Nat) : Int)) :=
  ⟨by decide, by decide, (getTemperature_decode 120).2.1 (by decide) (by decide)⟩

/-- C4: under the newer convention (`ProtocolVersionNumber = 1`) and for every
16 bit raw value, the magnitude of `getCurrent` is the low 15 bits of the raw
value, the result is plus the magnitude when the top bit is 1 and minus the
magnitude when it is 0, it fits `int16_t`, and the raw values `0x0000` and
`0x8000` both give 0. -/
theorem getCurrent_sign_magnitude (oldScale : Nat → Int) (raw : Nat)
    (hraw : raw < 2 ^ 16) :
    raw = raw / 2 ^ 15 % 2 * 2 ^ 15 + raw % 2 ^ 15
      ∧ (getCurrent oldScale 1 raw).natAbs = raw % 2 ^ 15
      ∧ (raw.testBit 15 = true →
          getCurrent oldScale 1 raw = ((raw % 2 ^ 15 : Nat) : Int))
      ∧ (raw.testBit 15 = false →
          getCurrent oldScale 1 raw = -((raw % 2 ^ 15 : Nat) : Int))
      ∧ fitsInt16 (getCurrent oldScale 1 raw)
      ∧ getCurrent oldScale 1 0x0000 = 0
      ∧ getCurrent oldScale 1 0x8000 = 0 := by
  have hm : raw % 2 ^ 15 < 2 ^ 15 := Nat.mod_lt _ (by norm_num)
  have hbit : raw.testBit 15 = decide (raw / 2 ^ 15 % 2 = 1) :=
    Nat.testBit_to_div_mod
  by_cases htop : raw / 2 ^ 15 % 2 = 1
  · have hval : getCurrent oldScale 1 raw = ((raw % 2 ^ 15 : Nat) : Int) := by
      unfold getCurrent
      rw [if_pos rfl, if_pos htop]
    refine ⟨by omega, by rw [hval]; rfl, fun _ => hval, ?_, ?_, by simp [getCurrent],
      by simp [getCurrent]⟩
    · intro hf
      rw [hbit, decide_eq_false_iff_not] at hf
      exact absurd htop hf
    · rw [hval]
      constructor <;> omega
  · have hval : getCurrent oldScale 1 raw = -((raw % 2 ^ 15 : Nat) : Int) := by
      unfold getCurrent
      rw [if_pos rfl, if_neg htop]
    refine ⟨by omega, by rw [hval, Int.natAbs_neg]; rfl, ?_, fun _ => hval, ?_,
      by simp [getCurrent], by simp [getCurrent]⟩
    · intro ht
      rw [hbit, decide_eq_true_eq] at ht
      exact absurd ht htop
    · rw [hval]
      constructor <;> omega

/-- Witness for C4 at the raw value `0x8064` (charging, magnitude 100). -/
theorem getCurrent_sign_magnitude_witness :
    0x8064 < 2 ^ 16 ∧ (getCurrent (fun _ => 0) 1 0x8064).natAbs = 0x8064 % 2 ^ 15 :=
  ⟨by norm_num, (getCurrent_sign_magnitude (fun _ => 0) 0x8064 (by norm_num)).2.1⟩

/-! ## Theorems: cell voltages -/

theorem decodeCellEntries_length (n : Nat) (bytes : List Nat) :
    (decodeCellEntries n bytes).length = n := by
  induction n generalizing bytes with
  | zero => rfl
  | succ k ih => simp [decodeCellEntries, ih]

theorem getD_drop (l : List Nat) (k j : Nat) :
    (l.drop k).getD j 0 = l.getD (k + j) 0 := by
  simp [List.getD_eq_getElem?_getD, List.getElem?_drop]

theorem decodeCellEntries_getElem? (n : Nat) (bytes : List Nat) (i : Nat) (hi : i < n) :
    (decodeCellEntries n bytes)[i]?
      = some (JKCellInfoStruct.mk (bytes.getD (3 * i) 0)
          (bigEndian16 (bytes.getD (3 * i + 1) 0) (bytes.getD (3 * i + 2) 0))) := by
  induction n generalizing bytes i with
  | zero => omega
  | succ k ih =>
    cases i with
    | zero => simp [decodeCellEntries]
    | succ j =>
      have hj : j < k := by omega
      simp only [decodeCellEntries, List.getElem?_cons_succ]
      rw [ih (bytes.drop 3) j hj, getD_drop, getD_drop, getD_drop]
      have e1 : 3 + 3 * j = 3 * (j + 1) := by omega
      have e2 : 3 + (3 * j + 1) = 3 * (j + 1) + 1 := by omega
      have e3 : 3 + (3 * j + 2) = 3 * (j + 1) + 2 := by omega
      rw [e1, e2, e3]

theorem getD_append_lt (pre : List Nat) (v j : Nat) (hj : j < pre.length) :
    (pre ++ [v]).getD j 0 = pre.getD j 0 := by
  simp [List.getD_eq_getElem?_getD, List.getElem?_append_left hj]

theorem getD_append_length (pre : List Nat) (v : Nat) :
    (pre ++ [v]).getD pre.length 0 = v := by
  simp [List.getD_eq_getElem?_getD]

theorem scanCell_invariant (pre : List Nat) (acc : CellScan) (v : Nat)
    (h : ScanInvariant pre acc) :
    ScanInvariant (pre ++ [v]) (scanCell acc pre.length v) := by
  obtain ⟨⟨hmin1, hmin2, hmin3⟩, hminv, ⟨hmax1, hmax2, hmax3⟩, hmaxv, hsum⟩ := h
  have hall : ∀ j, j < (pre ++ [v]).length → j < pre.length ∨ j = pre.length := by
    intro j hj
    simp only [List.length_append, List.length_singleton] at hj
    omega
  refine ⟨?_, ?_, ?_, ?_, ?_⟩
  · by_cases hlt : v < acc.minMillivolt
    · simp only [scanCell, if_pos hlt]
      refine ⟨by simp, ?_, ?_⟩
      · intro j hj
        rw [getD_append_length]
        rcases hall j hj with hj1 | hj1
        · rw [getD_append_lt pre v j hj1]
          have := hmin2 j hj1
          omega
        · rw [hj1, getD_append_length]
      · intro j hj
        rw [getD_append_length, getD_append_lt pre v j hj]
        have := hmin2 j hj
        omega
    · simp only [scanCell, if_neg hlt]
      refine ⟨by simp; omega, ?_, ?_⟩
      · intro j hj
        rw [getD_append_lt pre v _ hmin1]
        rcases hall j hj with hj1 | hj1
        · rw [getD_append_lt pre v j hj1]
          exact hmin2 j hj1
        · rw [hj1, getD_append_length]
          omega
      · intro j hj
        rw [getD_append_lt pre v _ hmin1, getD_append_lt pre v j (by omega)]
        exact hmin3 j hj
  · by_cases hlt : v < acc.minMillivolt
    · simp only [scanCell, if_pos hlt]
      exact getD_append_length pre v
    · simp only [scanCell, if_neg hlt]
      rw [getD_append_lt pre v _ hmin1]
      exact hminv
  · by_cases hlt : acc.maxMillivolt < v
    · simp only [scanCell, if_pos hlt]
      refine ⟨by simp, ?_, ?_⟩
      · intro j hj
        rw [getD_append_length]
        rcases hall j hj with hj1 | hj1
        · rw [getD_append_lt pre v j hj1]
          have := hmax2 j hj1
          omega
        · rw [hj1, getD_append_length]
      · intro j hj
        rw [getD_append_length, getD_append_lt pre v j hj]
        have := hmax2 j hj
        omega
    · simp only [scanCell, if_neg hlt]
      refine ⟨by simp; omega, ?_, ?_⟩
      · intro j hj
        rw [getD_append_lt pre v _ hmax1]
        rcases hall j hj with hj1 | hj1
        · rw [getD_append_lt pre v j hj1]
          exact hmax2 j hj1
        · rw [hj1, getD_append_length]
          omega
      · intro j hj
        rw [getD_append_lt pre v _ hmax1, getD_append_lt pre v j (by omega)]
        exact hmax3 j hj
  · by_cases hlt : acc.maxMillivolt < v
    · simp only [scanCell, if_pos hlt]
      exact getD_append_length pre v
    · simp only [scanCell, if_neg hlt]
      rw [getD_append_lt pre v _ hmax1]
      exact hmaxv
  · simp [scanCell, hsum]

theorem scanCells_invariant (vs pre : List Nat) (acc : CellScan)
    (h : ScanInvariant pre acc) :
    ScanInvariant (pre ++ vs) (scanCells vs pre.length acc) := by
  induction vs generalizing pre acc with
  | nil => simpa [scanCells] using h
  | cons v rest ih =>
    have hstep := ih (pre ++ [v]) (scanCell acc pre.length v) (scanCell_invariant pre acc v h)
    simpa [scanCells] using hstep

theorem cellStatistics_invariant (vs : List Nat) (hvs : vs ≠ []) :
    ScanInvariant vs (cellStatistics vs) := by
  cases vs with
  | nil => exact absurd rfl hvs
  | cons v rest =>
    have h0 : ScanInvariant [v]
        (scanCell { minIndex := 0, minMillivolt := v, maxIndex := 0, maxMillivolt := v,
                    sum := 0 } 0 v) := by
      refine ⟨⟨by simp [scanCell], ?_, ?_⟩, ?_, ⟨by simp [scanCell], ?_, ?_⟩, ?_, ?_⟩
      · intro j hj
        have : j = 0 := by simpa using hj
        subst this
        simp [scanCell]
      · intro j hj
        simp [scanCell] at hj
      · simp [scanCell]
      · intro j hj
        have : j = 0 := by simpa using hj
        subst this
        simp [scanCell]
      · intro j hj
        simp [scanCell] at hj
      · simp [scanCell]
      · simp [scanCell]
    have h1 := scanCells_invariant rest [v] _ h0
    simpa [cellStatistics, scanCells] using h1

/-- C5: for a cell sub-block with `n` entries, `1 ≤ n ≤ MAXIMUM_NUMBER_OF_CELLS`,
`fillJKConvertedCellInfo` returns the `n` entries in wire order, the first array
position holding the smallest voltage as `MinimumVoltagCellIndex`, the first
position holding the largest voltage as `MaximumVoltagCellIndex`, largest minus
smallest as `DeltaCellMillivolt` and the sum of the voltages divided by `n`
(integer division) as `AverageCellMillivolt`; for the voltages 3300, 3350, 3280
these are position 2, position 1, 70 and 3310. -/
theorem fillJKConvertedCellInfo_statistics (frame : List Nat) (n : Nat)
    (hn1 : 1 ≤ n) (hn2 : n ≤ MAXIMUM_NUMBER_OF_CELLS)
    (hcount : frame.getD JK_BMS_FRAME_INDEX_OF_CELL_INFO_LENGTH 0 / 3 = n) :
    (∃ r, fillJKConvertedCellInfo frame = some r
      ∧ r.NumberOfCellInfoEnties = n
      ∧ r.CellInfoStructArray.length = n
      ∧ (∀ i, i < n → r.CellInfoStructArray[i]?
          = some (JKCellInfoStruct.mk (frame.getD (13 + 3 * i) 0)
              (bigEndian16 (frame.getD (14 + 3 * i) 0) (frame.getD (15 + 3 * i) 0))))
      ∧ IsFirstMinimumAt (r.CellInfoStructArray.map fun c => c.CellMillivolt)
          r.MinimumVoltagCellIndex
      ∧ IsFirstMaximumAt (r.CellInfoStructArray.map fun c => c.CellMillivolt)
          r.MaximumVoltagCellIndex
      ∧ r.DeltaCellMillivolt
          = (r.CellInfoStructArray.map fun c => c.CellMillivolt).getD
              r.MaximumVoltagCellIndex 0
            - (r.CellInfoStructArray.map fun c => c.CellMillivolt).getD
              r.MinimumVoltagCellIndex 0
      ∧ r.AverageCellMillivolt
          = (r.CellInfoStructArray.map fun c => c.CellMillivolt).sum / n)
    ∧ fillJKConvertedCellInfo threeCellFrame
        = some
          { NumberOfCellInfoEnties := 3
            CellInfoStructArray :=
              [JKCellInfoStruct.mk 1 3300, JKCellInfoStruct.mk 2 3350,
               JKCellInfoStruct.mk 3 3280]
            MinimumVoltagCellIndex := 2
            MaximumVoltagCellIndex := 1
            DeltaCellMillivolt := 70
            AverageCellMillivolt := 3310 } := by
  refine ⟨?_, by decide⟩
  have hnot : ¬ MAXIMUM_NUMBER_OF_CELLS < n := by omega
  have hne : (List.map (fun c => c.CellMillivolt)
      (decodeCellEntries n (frame.drop (JK_BMS_FRAME_INDEX_OF_CELL_INFO_LENGTH + 1)))) ≠ [] := by
    intro h
    have h2 := congrArg List.length h
    simp only [List.length_map, decodeCellEntries_length, List.length_nil] at h2
    omega
  obtain ⟨hmin, hminv, hmax, hmaxv, hsum⟩ := cellStatistics_invariant _ hne
  refine ⟨_, by simp only [fillJKConvertedCellInfo, hcount, if_neg hnot]; rfl,
    rfl, decodeCellEntries_length _ _, ?_, hmin, hmax, ?_, ?_⟩
  · intro i hi
    show (decodeCellEntries n _)[i]? = _
    rw [decodeCellEntries_getElem? n _ i hi, getD_drop, getD_drop, getD_drop]
    have e0 : JK_BMS_FRAME_INDEX_OF_CELL_INFO_LENGTH + 1 = 13 := rfl
    have e1 : 13 + (3 * i + 1) = 14 + 3 * i := by omega
    have e2 : 13 + (3 * i + 2) = 15 + 3 * i := by omega
    rw [e0, e1, e2]
  · show _ - _ = _
    rw [hminv, hmaxv]
  · show _ / _ = _
    rw [hsum]

/-- Witness for C5 at the frame with the three cell entries 3300, 3350 and
3280 mV. -/
theorem fillJKConvertedCellInfo_statistics_witness :
    1 ≤ 3 ∧ 3 ≤ MAXIMUM_NUMBER_OF_CELLS
      ∧ threeCellFrame.getD JK_BMS_FRAME_INDEX_OF_CELL_INFO_LENGTH 0 / 3 = 3
      ∧ ∃ r, fillJKConvertedCellInfo threeCellFrame = some r
          ∧ r.NumberOfCellInfoEnties = 3
          ∧ IsFirstMinimumAt (r.CellInfoStructArray.map fun c => c.CellMillivolt)
              r.MinimumVoltagCellIndex :=
  ⟨by decide, by decide, by decide,
    match (fillJKConvertedCellInfo_statistics threeCellFrame 3 (by decide) (by decide)
      (by decide)).1 with
    | ⟨r, h1, h2, _, _, h5, _⟩ => ⟨r, h1, h2, h5⟩⟩

/-! ## Theorems: frame validation -/

theorem endTokenIndex_eq (len : Nat) : endTokenIndex len = len - 9 + 4 := by
  have hE : offsetOf JKFrameTailStruct "EndToken" = some 4 := by decide
  simp [endTokenIndex, trailerFieldIndex, hE, JK_BMS_FRAME_TRAILER_LENGTH]

theorem checksumIndex_eq (len : Nat) : checksumIndex len = len - 9 + 7 := by
  have hC : offsetOf JKFrameTailStruct "Checksum" = some 7 := by decide
  simp [checksumIndex, trailerFieldIndex, hC, JK_BMS_FRAME_TRAILER_LENGTH]

theorem validate_ok_iff (buffer : List Nat) :
    validate buffer = Except.ok buffer ↔
      (MINIMAL_JK_BMS_FRAME_LENGTH ≤ buffer.length
        ∧ buffer.getD (endTokenIndex buffer.length) 0 = JK_FRAME_END_BYTE
        ∧ computedChecksum buffer = storedChecksum buffer) := by
  unfold validate
  split_ifs with h1 h2 h3
  · constructor
    · intro h; cases h
    · rintro ⟨h, _, _⟩; exact absurd h1 (Nat.not_lt.mpr h)
  · constructor
    · intro h; cases h
    · rintro ⟨_, _, h⟩; exact absurd h h2
  · constructor
    · intro h; cases h
    · rintro ⟨_, h, _⟩; exact absurd h h3
  · constructor
    · intro _; exact ⟨Nat.le_of_not_lt h1, not_not.mp h3, not_not.mp h2⟩
    · intro _; rfl

theorem sum_take_set (l : List Nat) (i k v : Nat) (hi : i < k) (hk : k ≤ l.length) :
    ((l.set i v).take k).sum + l.getD i 0 = (l.take k).sum + v := by
  induction l generalizing i k with
  | nil => simp at hk; omega
  | cons a t ih =>
    cases k with
    | zero => omega
    | succ k1 =>
      cases i with
      | zero => simp; omega
      | succ j =>
        have hk1 : k1 ≤ t.length := by simpa using hk
        have := ih j k1 (by omega) hk1
        simp only [List.set_cons_succ, List.take_succ_cons, List.sum_cons,
          List.getD_cons_succ]
        omega

theorem getD_set_ne (l : List Nat) (i j v : Nat) (h : i ≠ j) :
    (l.set i v).getD j 0 = l.getD j 0 := by
  simp [List.getD_eq_getElem?_getD, List.getElem?_set_ne h]

theorem getD_lt_of_bytes (l : List Nat) (i : Nat) (hb : ∀ b ∈ l, b < 256) :
    l.getD i 0 < 256 := by
  by_cases hi : i < l.length
  · rw [List.getD_eq_getElem l 0 hi]
    exact hb _ (List.getElem_mem hi)
  · rw [List.getD_eq_default l 0 (by omega)]
    norm_num

/-- C2: for every frame of bytes that validation accepts and every position
`i` before the checksum field, replacing the byte at `i` by a different byte
value while leaving the stored checksum unchanged makes validation return
`ChecksumMismatch`; the checksum is the sum modulo 2^16 of the frame bytes from
the first start byte up to, not including, the two checksum bytes at `n - 2` and
`n - 1`, compared with the big-endian value of these two bytes. -/
theorem corrupted_byte_checksum_mismatch (frame : List Nat) (i v : Nat)
    (hbytes : ∀ b ∈ frame, b < 256) (hv : v < 256)
    (hok : validate frame = Except.ok frame)
    (hi : i < checksumIndex frame.length) (hne : v ≠ frame.getD i 0) :
    validate (frame.set i v) = Except.error ValidationError.ChecksumMismatch
      ∧ checksumIndex frame.length = frame.length - 2
      ∧ computedChecksum (frame.set i v)
          = ((frame.set i v).take (frame.length - 2)).sum % 2 ^ 16
      ∧ storedChecksum (frame.set i v)
          = frame.getD (frame.length - 2) 0 * 256 + frame.getD (frame.length - 1) 0
      ∧ storedChecksum (frame.set i v) = storedChecksum frame
      ∧ computedChecksum (frame.set i v) ≠ storedChecksum (frame.set i v) := by
  obtain ⟨hmin, _, hsum⟩ := (validate_ok_iff frame).mp hok
  have hmin19 : 19 ≤ frame.length := hmin
  have hci : checksumIndex frame.length = frame.length - 2 := by
    rw [checksumIndex_eq]; omega
  rw [hci] at hi
  have hold : frame.getD i 0 < 256 := getD_lt_of_bytes frame i hbytes
  have hstoredval : storedChecksum (frame.set i v)
      = frame.getD (frame.length - 2) 0 * 256 + frame.getD (frame.length - 1) 0 := by
    simp only [storedChecksum, List.length_set, hci, bigEndian16]
    rw [getD_set_ne frame i _ v (by omega), getD_set_ne frame i _ v (by omega)]
    have e : frame.length - 2 + 1 = frame.length - 1 := by omega
    rw [e]
  have hstored : storedChecksum (frame.set i v) = storedChecksum frame := by
    simp only [storedChecksum, List.length_set, hci]
    rw [getD_set_ne frame i _ v (by omega), getD_set_ne frame i _ v (by omega)]
  have hcompval : computedChecksum (frame.set i v)
      = ((frame.set i v).take (frame.length - 2)).sum % 2 ^ 16 := by
    simp only [computedChecksum, List.length_set, hci]
  have hcomp : computedChecksum (frame.set i v) ≠ storedChecksum (frame.set i v) := by
    rw [hstored, ← hsum]
    simp only [computedChecksum, List.length_set, hci]
    have hs := sum_take_set frame i (frame.length - 2) v hi (by omega)
    omega
  have hlen : ¬ (frame.set i v).length < MINIMAL_JK_BMS_FRAME_LENGTH := by
    simp only [List.length_set]
    exact Nat.not_lt.mpr hmin
  refine ⟨?_, hci, hcompval, hstoredval, hstored, hcomp⟩
  unfold validate
  rw [if_neg hlen, if_pos hcomp]

/-- Witness for C2: the end token of the sample frame (index 20, inside the
range the checksum covers) replaced by `0x00`. -/
theorem corrupted_byte_checksum_mismatch_witness :
    (∀ b ∈ sampleFrame, b < 256) ∧ 0x00 < 256
      ∧ validate sampleFrame = Except.ok sampleFrame
      ∧ 20 < checksumIndex sampleFrame.length
      ∧ 0x00 ≠ sampleFrame.getD 20 0
      ∧ validate (sampleFrame.set 20 0x00)
          = Except.error ValidationError.ChecksumMismatch :=
  ⟨by decide, by decide, by decide, by decide, by decide,
    (corrupted_byte_checksum_mismatch sampleFrame 20 0x00 (by decide) (by decide)
      (by decide) (by decide) (by decide)).1⟩

/-! ## Theorems: frame receiver -/

theorem accumulatingState_cases (cursor total : Nat) :
    accumulatingState cursor total = ReceiverState.AccumulatingHeader
      ∨ accumulatingState cursor total = ReceiverState.AccumulatingBody
      ∨ accumulatingState cursor total = ReceiverState.AccumulatingTail := by
  unfold accumulatingState
  split_ifs <;> simp

theorem read_accumulating (st : ReceiverState) (buf : List Nat) (b : Nat)
    (hst : st = ReceiverState.AccumulatingHeader ∨ st = ReceiverState.AccumulatingBody
      ∨ st = ReceiverState.AccumulatingTail) :
    readJK_BMSStatusFrameByte { state := st, JKReplyFrameBuffer := buf } b
      = accumulateByte { state := st, JKReplyFrameBuffer := buf } b := by
  rcases hst with h | h | h <;> subst h <;> rfl

theorem expectedTotalLength_append (buf : List Nat) (b : Nat) (h4 : 4 ≤ buf.length) :
    expectedTotalLength (buf ++ [b])
      = some (bigEndian16 (buf.getD 2 0) (buf.getD 3 0) + 2) := by
  have h5 : 4 ≤ (buf ++ [b]).length := by simp; omega
  unfold expectedTotalLength
  rw [if_pos h5, getD_append_lt buf b 2 (by omega), getD_append_lt buf b 3 (by omega)]

theorem accumulate_run (rest buf : List Nat) (st : ReceiverState)
    (hst : st = ReceiverState.AccumulatingHeader ∨ st = ReceiverState.AccumulatingBody
      ∨ st = ReceiverState.AccumulatingTail)
    (h4 : 4 ≤ buf.length)
    (htot : bigEndian16 (buf.getD 2 0) (buf.getD 3 0) + 2 = buf.length + rest.length)
    (hcap : buf.length + rest.length ≤ JKReplyFrameBufferSize) (hne : rest ≠ []) :
    feedBytes { state := st, JKReplyFrameBuffer := buf } rest
      = ({ state := ReceiverState.Complete, JKReplyFrameBuffer := buf ++ rest },
          List.replicate (rest.length - 1) JK_BMS_RECEIVE_OK ++ [JK_BMS_RECEIVE_FINISHED]) := by
  induction rest generalizing buf st with
  | nil => exact absurd rfl hne
  | cons b bs ih =>
    have hroom : ¬ JKReplyFrameBufferSize ≤ buf.length := by
      simp only [List.length_cons] at hcap
      omega
    have hexp := expectedTotalLength_append buf b h4
    cases bs with
    | nil =>
      simp only [List.length_cons, List.length_nil] at htot hcap
      have hfin : bigEndian16 (buf.getD 2 0) (buf.getD 3 0) + 2 ≤ (buf ++ [b]).length := by
        simp only [List.length_append, List.length_singleton]
        omega
      have hstep : readJK_BMSStatusFrameByte { state := st, JKReplyFrameBuffer := buf } b
          = ({ state := ReceiverState.Complete, JKReplyFrameBuffer := buf ++ [b] },
              JK_BMS_RECEIVE_FINISHED) := by
        rw [read_accumulating st buf b hst]
        simp only [accumulateByte, if_neg hroom, hexp, if_pos hfin]
      simp only [feedBytes, hstep]
      rfl
    | cons c cs =>
      simp only [List.length_cons] at htot hcap
      have hmore : ¬ bigEndian16 (buf.getD 2 0) (buf.getD 3 0) + 2 ≤ (buf ++ [b]).length := by
        simp only [List.length_append, List.length_singleton]
        omega
      have hstep : readJK_BMSStatusFrameByte { state := st, JKReplyFrameBuffer := buf } b
          = ({ state := accumulatingState (buf ++ [b]).length
                  (bigEndian16 (buf.getD 2 0) (buf.getD 3 0) + 2),
               JKReplyFrameBuffer := buf ++ [b] }, JK_BMS_RECEIVE_OK) := by
        rw [read_accumulating st buf b hst]
        simp only [accumulateByte, if_neg hroom, hexp, if_neg hmore]
      have hih := ih (buf ++ [b])
        (accumulatingState (buf ++ [b]).length
          (bigEndian16 (buf.getD 2 0) (buf.getD 3 0) + 2))
        (accumulatingState_cases _ _)
        (by simp only [List.length_append, List.length_singleton]; omega)
        (by
          rw [getD_append_lt buf b 2 (by omega), getD_append_lt buf b 3 (by omega), htot]
          simp only [List.length_append, List.length_cons, List.length_nil]
          omega)
        (by
          simp only [List.length_append, List.length_cons, List.length_nil]
          omega)
        (by simp)
      rw [feedBytes, hstep]
      simp only [hih, List.append_assoc, List.singleton_append, List.length_cons,
        Nat.add_sub_cancel]
      rfl

theorem feed_frame (frame : List Nat) (hwf : WellFormedFrame frame)
    (hcap : frame.length ≤ JKReplyFrameBufferSize) :
    feedBytes initJKReplyFrameBuffer frame
      = ({ state := ReceiverState.Complete, JKReplyFrameBuffer := frame },
          List.replicate (frame.length - 1) JK_BMS_RECEIVE_OK ++ [JK_BMS_RECEIVE_FINISHED]) := by
  obtain ⟨_, hlen, h0, h1, htot, _, _⟩ := hwf
  match frame, hlen, h0, h1, htot, hcap with
  | a :: b :: hi :: lo :: rest, hlen, h0, h1, htot, hcap =>
    have ha : a = JK_FRAME_START_BYTE_0 := h0
    have hb : b = JK_FRAME_START_BYTE_1 := h1
    subst ha hb
    have hrest : rest ≠ [] := by
      intro h
      subst h
      simp [JK_BMS_FRAME_TRAILER_LENGTH] at hlen
    have htot2 : bigEndian16 hi lo + 2 = 4 + rest.length := by
      have : (JK_FRAME_START_BYTE_0 :: JK_FRAME_START_BYTE_1 :: hi :: lo :: rest).length
          = bigEndian16 hi lo + 2 := htot
      simp only [List.length_cons] at this
      omega
    have hrun := accumulate_run rest
      [JK_FRAME_START_BYTE_0, JK_FRAME_START_BYTE_1, hi, lo]
      ReceiverState.AccumulatingHeader (Or.inl rfl) (by simp) htot2
      (by simp only [List.length_cons] at hcap ⊢; simpa using (by omega)) hrest
    have hmore : ¬ bigEndian16 hi lo + 2 ≤ 4 := by
      have : 0 < rest.length := List.length_pos.mpr hrest
      omega
    have e1 : readJK_BMSStatusFrameByte initJKReplyFrameBuffer JK_FRAME_START_BYTE_0
        = ({ state := ReceiverState.AwaitingStartByte1,
             JKReplyFrameBuffer := [JK_FRAME_START_BYTE_0] }, JK_BMS_RECEIVE_OK) := rfl
    have e2 : readJK_BMSStatusFrameByte
          { state := ReceiverState.AwaitingStartByte1,
            JKReplyFrameBuffer := [JK_FRAME_START_BYTE_0] } JK_FRAME_START_BYTE_1
        = ({ state := ReceiverState.AccumulatingHeader,
             JKReplyFrameBuffer := [JK_FRAME_START_BYTE_0, JK_FRAME_START_BYTE_1] },
            JK_BMS_RECEIVE_OK) := rfl
    have e3 : readJK_BMSStatusFrameByte
          { state := ReceiverState.AccumulatingHeader,
            JKReplyFrameBuffer := [JK_FRAME_START_BYTE_0, JK_FRAME_START_BYTE_1] } hi
        = ({ state := ReceiverState.AccumulatingHeader,
             JKReplyFrameBuffer := [JK_FRAME_START_BYTE_0, JK_FRAME_START_BYTE_1, hi] },
            JK_BMS_RECEIVE_OK) := rfl
    have e4 : readJK_BMSStatusFrameByte
          { state := ReceiverState.AccumulatingHeader,
            JKReplyFrameBuffer := [JK_FRAME_START_BYTE_0, JK_FRAME_START_BYTE_1, hi] } lo
        = ({ state := ReceiverState.AccumulatingHeader,
             JKReplyFrameBuffer := [JK_FRAME_START_BYTE_0, JK_FRAME_START_BYTE_1, hi, lo] },
            JK_BMS_RECEIVE_OK) := by
      show accumulateByte _ lo = _
      have hx : expectedTotalLength ([JK_FRAME_START_BYTE_0, JK_FRAME_START_BYTE_1, hi] ++ [lo])
          = some (bigEndian16 hi lo + 2) := rfl
      have hroom : ¬ JKReplyFrameBufferSize
          ≤ [JK_FRAME_START_BYTE_0, JK_FRAME_START_BYTE_1, hi].length := by
        simp [JKReplyFrameBufferSize]
      simp only [accumulateByte, if_neg hroom, hx]
      rw [if_neg (by simpa using hmore)]
      rfl
    obtain ⟨k, hk⟩ : ∃ k, rest.length = k + 1 :=
      ⟨rest.length - 1, by have := List.length_pos.mpr hrest; omega⟩
    rw [feedBytes, e1, feedBytes, e2, feedBytes, e3, feedBytes, e4]
    simp only [hrun, List.length_cons, hk, Nat.add_sub_cancel, List.replicate_succ,
      List.cons_append, List.nil_append]

set_option maxRecDepth 100000 in
theorem longFrame_wellFormed : WellFormedFrame longFrame := by
  decide

set_option maxRecDepth 100000 in
theorem longFrame_not_finished :
    JK_BMS_RECEIVE_FINISHED ∉ (feedBytes initJKReplyFrameBuffer longFrame).2 := by
  decide

/-- C1 (as stated, refuted): the sample frame is well formed, but with the
garbage byte `0x4E` fed before it the second call already returns
`JK_BMS_RECEIVE_ERROR` and no call returns `JK_BMS_RECEIVE_FINISHED`; and the
well-formed frame of 351 bytes does not fit the buffer, so feeding it never
returns `JK_BMS_RECEIVE_FINISHED` either. -/
theorem receiver_fails_on_start_byte_garbage_and_long_frame :
    WellFormedFrame sampleFrame
      ∧ (feedBytes initJKReplyFrameBuffer sampleFrame).2
          = List.replicate 24 JK_BMS_RECEIVE_OK ++ [JK_BMS_RECEIVE_FINISHED]
      ∧ (feedBytes initJKReplyFrameBuffer (JK_FRAME_START_BYTE_0 :: sampleFrame)).2
          = JK_BMS_RECEIVE_OK :: List.replicate 25 JK_BMS_RECEIVE_ERROR
      ∧ JK_BMS_RECEIVE_FINISHED
          ∉ (feedBytes initJKReplyFrameBuffer (JK_FRAME_START_BYTE_0 :: sampleFrame)).2
      ∧ WellFormedFrame longFrame
      ∧ JK_BMS_RECEIVE_FINISHED ∉ (feedBytes initJKReplyFrameBuffer longFrame).2 := by
  exact ⟨by decide, by decide, by decide, by decide, longFrame_wellFormed,
    longFrame_not_finished⟩

/-- C1 (amended): for every well-formed reply frame of at most 350 bytes (the
capacity of `JKReplyFrameBuffer`), feeding its bytes one at a time returns
`JK_BMS_RECEIVE_OK` for every byte but the last and `JK_BMS_RECEIVE_FINISHED`
exactly once, on the last byte, and leaves the frame in the buffer; one garbage
byte other than `0x4E` fed before the first start byte returns
`JK_BMS_RECEIVE_OK` and does not change this outcome. -/
theorem receiver_finishes_on_last_byte (frame : List Nat) (g : Nat)
    (hwf : WellFormedFrame frame) (hcap : frame.length ≤ JKReplyFrameBufferSize)
    (hg : g ≠ JK_FRAME_START_BYTE_0) :
    feedBytes initJKReplyFrameBuffer frame
        = ({ state := ReceiverState.Complete, JKReplyFrameBuffer := frame },
            List.replicate (frame.length - 1) JK_BMS_RECEIVE_OK ++ [JK_BMS_RECEIVE_FINISHED])
      ∧ (feedBytes initJKReplyFrameBuffer frame).2.count JK_BMS_RECEIVE_FINISHED = 1
      ∧ feedBytes initJKReplyFrameBuffer (g :: frame)
        = ((feedBytes initJKReplyFrameBuffer frame).1,
            JK_BMS_RECEIVE_OK :: (feedBytes initJKReplyFrameBuffer frame).2) := by
  have hfeed := feed_frame frame hwf hcap
  have hskip : readJK_BMSStatusFrameByte initJKReplyFrameBuffer g
      = (initJKReplyFrameBuffer, JK_BMS_RECEIVE_OK) := by
    show (if g = JK_FRAME_START_BYTE_0 then _ else _) = _
    rw [if_neg hg]
  refine ⟨hfeed, ?_, ?_⟩
  · rw [hfeed]
    have hne : JK_BMS_RECEIVE_OK ≠ JK_BMS_RECEIVE_FINISHED := by decide
    simp [List.count_append, List.count_replicate, hne]
  · rw [feedBytes, hskip]

/-- Witness for the amended C1: the sample frame of 25 bytes after the garbage
byte `0x00`. -/
theorem receiver_finishes_on_last_byte_witness :
    WellFormedFrame sampleFrame ∧ sampleFrame.length ≤ JKReplyFrameBufferSize
      ∧ 0x00 ≠ JK_FRAME_START_BYTE_0
      ∧ feedBytes initJKReplyFrameBuffer sampleFrame
        = ({ state := ReceiverState.Complete, JKReplyFrameBuffer := sampleFrame },
            List.replicate (sampleFrame.length - 1) JK_BMS_RECEIVE_OK
              ++ [JK_BMS_RECEIVE_FINISHED]) :=
  ⟨by decide, by decide, by decide,
    (receiver_finishes_on_last_byte sampleFrame 0x00 (by decide) (by decide) (by decide)).1⟩

end JKBMS
